import Mathlib

/-!
Shallow embedding of the rljax algorithm base classes
(`rljax/algorithm/base.py`) and the FQF agent (`rljax/algorithm/fqf.py`),
together with the parts of the buffer and optimisation utilities that the
base classes call.  Parameters, optimiser states and network outputs are
kept abstract (type parameters / function arguments); counters and
coefficients are `Nat` / `Rat`.
-/

namespace Rljax

/-- Modelled from the spec: `soft_update` (from `rljax/util/optim.py`, whose
body is not under `src/`).  The spec describes the target network as "a
delayed copy of the online parameters, updated via soft/hard
synchronization": a soft update with rate `tau` blends each target
parameter with the corresponding online parameter. -/
def soft_update (target_params online_params : ℚ) (tau : ℚ) : ℚ :=
  (1 - tau) * target_params + tau * online_params

/-- Embedding of `QLearning.__init__`, which sets `self._update_target = jax.jit(partial(soft_update, tau=1.0))`
(src/rljax/algorithm/base.py line 287). -/
def QLearning_update_target (target_params online_params : ℚ) : ℚ :=
  soft_update target_params online_params 1

/-- Embedding of `OffPolicyActorCritic.__init__`, which sets
`self._update_target = jax.jit(partial(soft_update, tau=tau))`
(src/rljax/algorithm/base.py line 229), with `tau` the constructor argument. -/
def OffPolicyActorCritic_update_target (tau target_params online_params : ℚ) : ℚ :=
  soft_update target_params online_params tau

/-- State of `OnPolicyActorCritic` relevant to `is_update`
(src/rljax/algorithm/base.py lines 100-101). -/
structure OnPolicyState where
  env_step : ℕ
  buffer_size : ℕ

/-- Embedding of `OnPolicyActorCritic.is_update`: `return self.env_step % self.buffer_size == 0`. -/
def OnPolicyState.is_update (s : OnPolicyState) : Bool :=
  s.env_step % s.buffer_size == 0

/-- Claim C1: `QLearning`'s target update is hard (`soft_update` with
`tau = 1.0` returns the online parameters), while
`OffPolicyActorCritic`'s target update is the soft blend
`(1 - tau) * target + tau * online` with its constructor argument `tau`. -/
theorem C1_target_sync_hard_vs_soft (target_params online_params tau : ℚ) :
    QLearning_update_target target_params online_params = online_params ∧
    OffPolicyActorCritic_update_target tau target_params online_params =
      (1 - tau) * target_params + tau * online_params := by
  constructor
  · simp [QLearning_update_target, soft_update]
  · rfl

/-- Claim C2: `OnPolicyActorCritic.is_update` returns `True` exactly when
`env_step` is a multiple of `buffer_size`. -/
theorem C2_on_policy_is_update_iff_multiple (s : OnPolicyState) :
    s.is_update = true ↔ s.buffer_size ∣ s.env_step := by
  simp [OnPolicyState.is_update, Nat.dvd_iff_mod_eq_zero]

/-- Descriptor of the buffer constructed by `OffPolicyAlgorithm.__init__`
(src/rljax/algorithm/base.py lines 145-161): either a
`PrioritizedReplayBuffer` (with an extra `beta_steps` argument) or a plain
`ReplayBuffer`, each recording the constructor arguments it received.
`S` and `A` stand for the (opaque) gym state and action spaces. -/
inductive BufferInit (S A : Type) where
  | prioritizedReplayBuffer (buffer_size : ℕ) (state_space : S) (action_space : A)
      (gamma : ℚ) (nstep : ℕ) (beta_steps : ℚ)
  | replayBuffer (buffer_size : ℕ) (state_space : S) (action_space : A)
      (gamma : ℚ) (nstep : ℕ)

/-- State of an `OffPolicyAlgorithm` as set up by its `__init__`
(src/rljax/algorithm/base.py lines 118-167), restricted to the fields the
base class itself reads and writes. -/
structure OffPolicyAlgorithm (S A : Type) where
  env_step : ℕ
  num_steps : ℕ
  state_space : S
  action_space : A
  gamma : ℚ
  nstep : ℕ
  buffer : BufferInit S A
  discount : ℚ
  use_per : Bool
  batch_size : ℕ
  start_steps : ℕ
  update_interval : ℕ

/-- Embedding of `OffPolicyAlgorithm.__init__`: it chooses the buffer class from `use_per`
(passing `beta_steps = (num_steps - start_steps) / update_interval`, a
Python true division, to the prioritized buffer), and sets
`self.discount = gamma ** nstep`.  `Algorithm.__init__` starts
`env_step` at 0. -/
def OffPolicyAlgorithm.init (S A : Type) (num_steps : ℕ) (state_space : S)
    (action_space : A) (gamma : ℚ) (nstep : ℕ) (buffer_size : ℕ) (use_per : Bool)
    (batch_size : ℕ) (start_steps : ℕ) (update_interval : ℕ) :
    OffPolicyAlgorithm S A :=
  { env_step := 0
    num_steps := num_steps
    state_space := state_space
    action_space := action_space
    gamma := gamma
    nstep := nstep
    buffer :=
      if use_per then
        .prioritizedReplayBuffer buffer_size state_space action_space gamma nstep
          (((num_steps : ℚ) - (start_steps : ℚ)) / (update_interval : ℚ))
      else
        .replayBuffer buffer_size state_space action_space gamma nstep
    discount := gamma ^ nstep
    use_per := use_per
    batch_size := batch_size
    start_steps := start_steps
    update_interval := update_interval }

/-- Embedding of `OffPolicyAlgorithm.is_update`
(src/rljax/algorithm/base.py lines 169-170):
`return self.env_step % self.update_interval == 0 and self.env_step >= self.start_steps`. -/
def OffPolicyAlgorithm.is_update (s : OffPolicyAlgorithm S A) : Bool :=
  (s.env_step % s.update_interval == 0) && decide (s.start_steps ≤ s.env_step)

/-- The gym environment as the algorithm's `step` methods use it:
`action_space.sample()`, `env.step(action)` returning
`(next_state, reward, done, info)` (info ignored), `env.reset()` and the
`_max_episode_steps` attribute.  All are opaque to the base classes, so
they enter the embedding as given data. -/
structure GymEnv (S A : Type) where
  sample : A
  stepFn : A → S × ℚ × Bool
  reset : S
  max_episode_steps : ℕ

/-- One transition as appended to the replay buffer by
`OffPolicyAlgorithm.step`:
`self.buffer.append(state, action, reward, mask, next_state, done)`. -/
structure Transition (S A : Type) where
  state : S
  action : A
  reward : ℚ
  mask : Bool
  next_state : S
  done : Bool

/-- Embedding of `OffPolicyAlgorithm.step` (src/rljax/algorithm/base.py lines 176-195):
increments `t` and `env_step`; samples a random action while
`env_step <= start_steps` and otherwise calls `explore(state)`; steps the
environment; masks out time-limit terminations; appends the transition;
and resets the episode on `done`.  Returns the new algorithm state, the
transition appended to the buffer, and the `(next_state, t)` pair the
method returns. -/
def OffPolicyAlgorithm.step (s : OffPolicyAlgorithm S A) (env : GymEnv S A)
    (explore : S → A) (state : S) (t : ℕ) :
    OffPolicyAlgorithm S A × Transition S A × S × ℕ :=
  let t1 := t + 1
  let env_step1 := s.env_step + 1
  let action := if env_step1 ≤ s.start_steps then env.sample else explore state
  let out := env.stepFn action
  let next_state := out.1
  let reward := out.2.1
  let done := out.2.2
  let mask := if t1 = env.max_episode_steps then false else done
  let tr : Transition S A :=
    { state := state, action := action, reward := reward, mask := mask
      next_state := next_state, done := done }
  let fin := if done then (env.reset, 0) else (next_state, t1)
  ({ s with env_step := env_step1 }, tr, fin.1, fin.2)

/-- One record as appended to the rollout buffer by
`OnPolicyActorCritic.step`:
`self.buffer.append(state, action, reward, mask, log_pi, next_state)`. -/
structure RolloutRecord (S A : Type) where
  state : S
  action : A
  reward : ℚ
  mask : Bool
  log_pi : ℚ
  next_state : S

/-- Embedding of `OnPolicyActorCritic.step` (src/rljax/algorithm/base.py lines 103-117):
increments `t` and `env_step`, explores (obtaining `action, log_pi`),
steps the environment, masks out time-limit terminations, appends to the
rollout buffer and resets the episode on `done`. -/
def OnPolicyState.step (s : OnPolicyState) (env : GymEnv S A)
    (explore : S → A × ℚ) (state : S) (t : ℕ) :
    OnPolicyState × RolloutRecord S A × S × ℕ :=
  let t1 := t + 1
  let env_step1 := s.env_step + 1
  let ex := explore state
  let action := ex.1
  let log_pi := ex.2
  let out := env.stepFn action
  let next_state := out.1
  let reward := out.2.1
  let done := out.2.2
  let mask := if t1 = env.max_episode_steps then false else done
  let rec1 : RolloutRecord S A :=
    { state := state, action := action, reward := reward, mask := mask
      log_pi := log_pi, next_state := next_state }
  let fin := if done then (env.reset, 0) else (next_state, t1)
  ({ s with env_step := env_step1 }, rec1, fin.1, fin.2)

/-- Claim C3: `OffPolicyAlgorithm.__init__` builds a
`PrioritizedReplayBuffer` with `beta_steps = (num_steps - start_steps) / update_interval`
when `use_per` holds and a plain `ReplayBuffer` otherwise, passing the
same `buffer_size`, `state_space`, `action_space`, `gamma` and `nstep`
to either class. -/
theorem C3_buffer_construction (S A : Type) (num_steps : ℕ) (state_space : S)
    (action_space : A) (gamma : ℚ) (nstep buffer_size : ℕ) (use_per : Bool)
    (batch_size start_steps update_interval : ℕ) :
    (use_per = true →
      (OffPolicyAlgorithm.init S A num_steps state_space action_space gamma nstep
          buffer_size use_per batch_size start_steps update_interval).buffer =
        .prioritizedReplayBuffer buffer_size state_space action_space gamma nstep
          (((num_steps : ℚ) - (start_steps : ℚ)) / (update_interval : ℚ))) ∧
    (use_per = false →
      (OffPolicyAlgorithm.init S A num_steps state_space action_space gamma nstep
          buffer_size use_per batch_size start_steps update_interval).buffer =
        .replayBuffer buffer_size state_space action_space gamma nstep) := by
  constructor <;> intro h <;> simp [OffPolicyAlgorithm.init, h]

/-- Closed witness for C3 at concrete inputs, covering both values of
`use_per`. -/
theorem C3_buffer_construction_witness :
    (OffPolicyAlgorithm.init ℕ ℕ 100 0 0 (99/100) 3 64 true 32 10 4).buffer =
      .prioritizedReplayBuffer 64 0 0 (99/100) 3 (((100 : ℚ) - (10 : ℚ)) / (4 : ℚ)) ∧
    (OffPolicyAlgorithm.init ℕ ℕ 100 0 0 (99/100) 3 64 false 32 10 4).buffer =
      .replayBuffer 64 0 0 (99/100) 3 :=
  ⟨(C3_buffer_construction ℕ ℕ 100 0 0 (99/100) 3 64 true 32 10 4).1 rfl,
   (C3_buffer_construction ℕ ℕ 100 0 0 (99/100) 3 64 false 32 10 4).2 rfl⟩

/-- Claim C6: the bootstrap discount stored by `OffPolicyAlgorithm.__init__`
is `gamma ** nstep`, the product of `nstep` copies of `gamma` (the factor
by which an n-step return discounts the bootstrapped value). -/
theorem C6_discount_is_gamma_pow_nstep (S A : Type) (num_steps : ℕ)
    (state_space : S) (action_space : A) (gamma : ℚ)
    (nstep buffer_size : ℕ) (use_per : Bool)
    (batch_size start_steps update_interval : ℕ) :
    (OffPolicyAlgorithm.init S A num_steps state_space action_space gamma nstep
        buffer_size use_per batch_size start_steps update_interval).discount =
      gamma ^ nstep ∧
    (OffPolicyAlgorithm.init S A num_steps state_space action_space gamma nstep
        buffer_size use_per batch_size start_steps update_interval).discount =
      (List.replicate nstep gamma).prod := by
  constructor <;> simp [OffPolicyAlgorithm.init, List.prod_replicate]

/-- Claim C8: during warm-up, actions are random and no updates occur.  In
`OffPolicyAlgorithm.step` the action is `env.action_space.sample()` while
the incremented `env_step` is at most `start_steps` and `explore(state)`
afterwards, and `is_update()` is `False` whenever `env_step` is strictly
below `start_steps`. -/
theorem C8_warmup_random_actions_no_updates (S A : Type)
    (s : OffPolicyAlgorithm S A) (env : GymEnv S A) (explore : S → A)
    (state : S) (t : ℕ) :
    ((s.step env explore state t).2.1.action =
      if s.env_step + 1 ≤ s.start_steps then env.sample else explore state) ∧
    (s.env_step < s.start_steps → s.is_update = false) := by
  constructor
  · rfl
  · intro h
    simp [OffPolicyAlgorithm.is_update, Nat.not_le.mpr h]

/-- Closed witness for C8: a freshly initialised algorithm
(`env_step = 0 < start_steps = 10`) reports `is_update = false`, and its
first step samples the random action (here `7`) rather than exploring. -/
theorem C8_warmup_witness :
    (0 : ℕ) < 10 ∧
    (OffPolicyAlgorithm.init ℕ ℕ 100 0 0 (99/100) 1 64 false 32 10 4).is_update
      = false ∧
    ((OffPolicyAlgorithm.init ℕ ℕ 100 0 0 (99/100) 1 64 false 32 10 4).step
        ⟨7, fun a => (a + 1, 0, false), 0, 5⟩ (fun n => 2 * n) 3 0).2.1.action
      = 7 := by
  refine ⟨by decide, ?_, ?_⟩
  · exact (C8_warmup_random_actions_no_updates ℕ ℕ
      (OffPolicyAlgorithm.init ℕ ℕ 100 0 0 (99/100) 1 64 false 32 10 4)
      ⟨7, fun a => (a + 1, 0, false), 0, 5⟩ (fun n => 2 * n) 3 0).2 (by decide)
  · have h := (C8_warmup_random_actions_no_updates ℕ ℕ
      (OffPolicyAlgorithm.init ℕ ℕ 100 0 0 (99/100) 1 64 false 32 10 4)
      ⟨7, fun a => (a + 1, 0, false), 0, 5⟩ (fun n => 2 * n) 3 0).1
    simpa using h

/-- Claim C9: time-limit terminations are stored as non-terminal.  In both
`OffPolicyAlgorithm.step` and `OnPolicyActorCritic.step`, the mask
appended to the buffer is `False` when the incremented episode counter
equals `env._max_episode_steps` (whatever `done` the environment
reported), and equals the reported `done` otherwise. -/
theorem C9_time_limit_mask (S A : Type) (s : OffPolicyAlgorithm S A)
    (s2 : OnPolicyState) (env : GymEnv S A) (exploreOff : S → A)
    (exploreOn : S → A × ℚ) (state : S) (t : ℕ) :
    ((s.step env exploreOff state t).2.1.mask =
      if t + 1 = env.max_episode_steps then false
      else (s.step env exploreOff state t).2.1.done) ∧
    ((s2.step env exploreOn state t).2.1.mask =
      if t + 1 = env.max_episode_steps then false
      else (env.stepFn (exploreOn state).1).2.2) :=
  ⟨rfl, rfl⟩

/-- State of an `FQF` agent (src/rljax/algorithm/fqf.py) as threaded by
`FQF.update`.  Network parameters are represented by one scalar parameter
(`ℚ`), so that the target synchronization `soft_update` applies literally;
the optimiser states and the fraction-proposal parameters stay abstract
(`OP`, `Q`, `OQ`). -/
structure FQF (OP Q OQ : Type) where
  agent_step : ℕ
  learning_step : ℕ
  update_interval_target : ℕ
  use_per : Bool
  discount : ℚ
  params : ℚ
  params_target : ℚ
  opt_state : OP
  params_cum_p : Q
  opt_state_cum_p : OQ

/-- The target quantile values of `FQF._loss`
(src/rljax/algorithm/fqf.py line 193):
`target_quantile = jnp.expand_dims(reward, 2) + (1.0 - jnp.expand_dims(done, 2)) * self.discount * next_quantile`,
reshaped to `(batch_size, 1, N)`. -/
def target_quantile (discount : ℚ) (B N : ℕ) (reward done : Fin B → ℚ)
    (next_quantile : Fin B → Fin N → ℚ) (b : Fin B) (j : Fin N) : ℚ :=
  reward b + (1 - done b) * discount * next_quantile b j

/-- The TD tensor `td = target_quantile - curr_quantile` of `FQF._loss`
(line 198): `target_quantile` has shape `(batch, 1, N)` and
`curr_quantile` shape `(batch, N, 1)`, so broadcasting gives
`td[b, i, j] = target_quantile[b, j] - curr_quantile[b, i]`. -/
def td (B N : ℕ) (target curr : Fin B → Fin N → ℚ) (b : Fin B) (i j : Fin N) : ℚ :=
  target b j - curr b i

/-- Embedding of `abs_td = jnp.abs(td).sum(axis=1).mean(axis=1, keepdims=True)` in
`FQF._loss` (line 200): the absolute TD errors summed over the first
quantile axis and averaged over the second. -/
def abs_td (B N : ℕ) (target curr : Fin B → Fin N → ℚ) (b : Fin B) : ℚ :=
  (∑ j : Fin N, ∑ i : Fin N, |td B N target curr b i j|) / (N : ℚ)

/-- Embedding of `FQF.update` (src/rljax/algorithm/fqf.py lines 108-149).  The two
`optimize` calls (from `rljax/util/optim.py`, opaque to this embedding)
enter as the state-transition functions `optStepCumP` and `optStep`; the
network applications inside `_loss` enter as the batch arrays `reward`,
`done`, `next_quantile` and `curr_quantile`, from which the update
computes `abs_td` exactly as `_loss` does.  The returned `Option`
records the argument of the (sole) `buffer.update_priority` call, `none`
when no such call is made; the target network is synchronized with
`soft_update` at `tau = 1.0` (inherited from `QLearning`) only when
`agent_step` is a multiple of `update_interval_target`. -/
def FQF.update (s : FQF OP Q OQ) (optStepCumP : OQ × Q → OQ × Q)
    (optStep : OP × ℚ → OP × ℚ) (B N : ℕ) (reward done : Fin B → ℚ)
    (next_quantile curr_quantile : Fin B → Fin N → ℚ) :
    FQF OP Q OQ × Option (Fin B → ℚ) :=
  let learning_step1 := s.learning_step + 1
  let rQ := optStepCumP (s.opt_state_cum_p, s.params_cum_p)
  let r := optStep (s.opt_state, s.params)
  let absTd :=
    abs_td B N (target_quantile s.discount B N reward done next_quantile) curr_quantile
  let priority_arg := if s.use_per then some absTd else none
  let params_target1 :=
    if s.agent_step % s.update_interval_target = 0 then
      soft_update s.params_target r.2 1
    else s.params_target
  ({ s with
      learning_step := learning_step1
      opt_state_cum_p := rQ.1
      params_cum_p := rQ.2
      opt_state := r.1
      params := r.2
      params_target := params_target1 },
   priority_arg)

/-- Outcome of `FQF.__init__` (src/rljax/algorithm/fqf.py lines 19-92) as
far as the `loss_type` assertion is concerned:
`assert loss_type in ["l2", "huber"]` is the first statement of the
constructor, so any other `loss_type` raises an `AssertionError` before
any other initialization runs, and otherwise construction proceeds
(recording the configuration fields set afterwards). -/
structure FQFConfig where
  loss_type : String
  num_quantiles : ℕ
  num_cosines : ℕ
  double_q : Bool

/-- The `FQF` constructor restricted to the assertion and the plain
configuration fields it stores. -/
def FQF.construct (loss_type : String) (num_quantiles num_cosines : ℕ)
    (double_q : Bool) : Except String FQFConfig :=
  if loss_type ∈ (["l2", "huber"] : List String) then
    .ok { loss_type := loss_type, num_quantiles := num_quantiles
          num_cosines := num_cosines, double_q := double_q }
  else
    .error "AssertionError"

/-- Claim C4: `FQF.update` calls `buffer.update_priority` exactly when
`use_per` is true, and the priorities it passes are the absolute TD
errors of `_loss`: for each batch entry `b`, the absolute value of
target quantile minus current quantile, summed over the first quantile
axis and averaged over the second. -/
theorem C4_priority_update_iff_per (OP Q OQ : Type) (s : FQF OP Q OQ)
    (optStepCumP : OQ × Q → OQ × Q) (optStep : OP × ℚ → OP × ℚ) (B N : ℕ)
    (reward done : Fin B → ℚ) (next_quantile curr_quantile : Fin B → Fin N → ℚ) :
    (s.update optStepCumP optStep B N reward done next_quantile curr_quantile).2 =
      if s.use_per then
        some (fun b : Fin B =>
          (∑ j : Fin N, ∑ i : Fin N,
            |(reward b + (1 - done b) * s.discount * next_quantile b j) -
              curr_quantile b i|) / (N : ℚ))
      else none := by
  rfl

/-- Claim C5: in `FQF.update`, `params_target` is reassigned (synchronized
from the freshly optimised online parameters) exactly when `agent_step`
is a multiple of `update_interval_target` and is left unchanged
otherwise, while the online parameters, both optimizer states, and the
fraction-proposal parameters take their new values on every call. -/
theorem C5_target_sync_frame (OP Q OQ : Type) (s : FQF OP Q OQ)
    (optStepCumP : OQ × Q → OQ × Q) (optStep : OP × ℚ → OP × ℚ) (B N : ℕ)
    (reward done : Fin B → ℚ) (next_quantile curr_quantile : Fin B → Fin N → ℚ) :
    ((s.update optStepCumP optStep B N reward done next_quantile curr_quantile).1.params_target =
      if s.agent_step % s.update_interval_target = 0 then
        (optStep (s.opt_state, s.params)).2
      else s.params_target) ∧
    (s.update optStepCumP optStep B N reward done next_quantile curr_quantile).1.params =
      (optStep (s.opt_state, s.params)).2 ∧
    (s.update optStepCumP optStep B N reward done next_quantile curr_quantile).1.opt_state =
      (optStep (s.opt_state, s.params)).1 ∧
    (s.update optStepCumP optStep B N reward done next_quantile curr_quantile).1.params_cum_p =
      (optStepCumP (s.opt_state_cum_p, s.params_cum_p)).2 ∧
    (s.update optStepCumP optStep B N reward done next_quantile curr_quantile).1.opt_state_cum_p =
      (optStepCumP (s.opt_state_cum_p, s.params_cum_p)).1 := by
  refine ⟨?_, rfl, rfl, rfl, rfl⟩
  by_cases h : s.agent_step % s.update_interval_target = 0 <;>
    simp [FQF.update, h, soft_update]

/-- Claim C10: `FQF` construction with a `loss_type` other than `"l2"` or
`"huber"` raises an `AssertionError` before anything else; for `"l2"`
and `"huber"` the assertion passes and construction proceeds. -/
theorem C10_loss_type_assertion (loss_type : String)
    (num_quantiles num_cosines : ℕ) (double_q : Bool) :
    (loss_type ≠ "l2" → loss_type ≠ "huber" →
      FQF.construct loss_type num_quantiles num_cosines double_q =
        .error "AssertionError") ∧
    (loss_type = "l2" ∨ loss_type = "huber" →
      FQF.construct loss_type num_quantiles num_cosines double_q =
        .ok { loss_type := loss_type, num_quantiles := num_quantiles
              num_cosines := num_cosines, double_q := double_q }) := by
  constructor
  · intro h1 h2
    simp [FQF.construct, h1, h2]
  · intro h
    rcases h with h | h <;> simp [FQF.construct, h]

/-- Closed witness for C10 at the concrete loss types `"l1"`, `"l2"` and
`"huber"`. -/
theorem C10_loss_type_assertion_witness :
    FQF.construct "l1" 32 64 false = .error "AssertionError" ∧
    FQF.construct "l2" 32 64 false =
      .ok { loss_type := "l2", num_quantiles := 32
            num_cosines := 64, double_q := false } ∧
    FQF.construct "huber" 32 64 false =
      .ok { loss_type := "huber", num_quantiles := 32
            num_cosines := 64, double_q := false } :=
  ⟨(C10_loss_type_assertion "l1" 32 64 false).1 (by decide) (by decide),
   (C10_loss_type_assertion "l2" 32 64 false).2 (Or.inl rfl),
   (C10_loss_type_assertion "huber" 32 64 false).2 (Or.inr rfl)⟩

/-- Modelled from the spec: `ReplayBuffer` (package `rljax/buffer`, whose
code is not under `src/`), described as a "fixed-capacity circular store
of transitions".  The store keeps `capacity` slots; `pos` counts the
transitions appended so far, and each append writes slot
`pos % capacity` before incrementing `pos`, so once the store is full
every further append wraps around and overwrites the oldest slot. -/
structure ReplayBuffer (T : Type) where
  capacity : ℕ
  data : List (Option T)
  pos : ℕ

/-- A fresh replay buffer: `capacity` empty slots. -/
def ReplayBuffer.empty (T : Type) (capacity : ℕ) : ReplayBuffer T :=
  { capacity := capacity, data := List.replicate capacity none, pos := 0 }

/-- Append one transition at the circular write position. -/
def ReplayBuffer.append (b : ReplayBuffer T) (x : T) : ReplayBuffer T :=
  { b with data := b.data.set (b.pos % b.capacity) (some x), pos := b.pos + 1 }

/-- Append a whole sequence of transitions in order. -/
def ReplayBuffer.appendAll (b : ReplayBuffer T) (xs : List T) : ReplayBuffer T :=
  xs.foldl ReplayBuffer.append b

lemma ReplayBuffer.appendAll_concat (b : ReplayBuffer T) (l : List T) (x : T) :
    b.appendAll (l ++ [x]) = (b.appendAll l).append x := by
  simp [ReplayBuffer.appendAll, List.foldl_append]

/-- Core invariant of the circular store: after appending `xs` to a fresh
buffer, the capacity and slot count are unchanged, `pos` equals the
number of appends, and slot `j % cap` holds the `j`-th appended
transition for every `j` whose write has not yet been overwritten
(i.e. every `j` among the last `cap` appends). -/
lemma ReplayBuffer.appendAll_invariant (T : Type) (cap : ℕ) (xs : List T) :
    ((ReplayBuffer.empty T cap).appendAll xs).capacity = cap ∧
    ((ReplayBuffer.empty T cap).appendAll xs).pos = xs.length ∧
    ((ReplayBuffer.empty T cap).appendAll xs).data.length = cap ∧
    ∀ j, j < xs.length → xs.length ≤ j + cap →
      ((ReplayBuffer.empty T cap).appendAll xs).data[j % cap]? = some (xs[j]?) := by
  induction xs using List.reverseRecOn with
  | nil =>
    refine ⟨rfl, rfl, by simp [ReplayBuffer.empty, ReplayBuffer.appendAll], ?_⟩
    intro j hj _
    simp at hj
  | append_singleton l x ih =>
    obtain ⟨hc, hp, hl, hs⟩ := ih
    rw [ReplayBuffer.appendAll_concat]
    refine ⟨hc, by simp [ReplayBuffer.append, hp], by simp [ReplayBuffer.append, hl], ?_⟩
    intro j hj hwin
    simp only [List.length_append, List.length_cons, List.length_nil] at hj hwin
    have hpos : 0 < cap := by omega
    simp only [ReplayBuffer.append, hp, hc]
    rcases Nat.lt_or_ge j l.length with hjlt | hge
    · have hne : l.length % cap ≠ j % cap := by
        intro heq
        have hmod : j ≡ l.length [MOD cap] := heq.symm
        have hdvd : cap ∣ l.length - j := (Nat.modEq_iff_dvd' (Nat.le_of_lt hjlt)).mp hmod
        have hle : cap ≤ l.length - j := Nat.le_of_dvd (by omega) hdvd
        omega
      rw [List.getElem?_set_ne hne, List.getElem?_append_left hjlt]
      exact hs j hjlt (by omega)
    · have hjeq : j = l.length := by omega
      subst hjeq
      rw [List.getElem?_set_eq_of_lt (some x) (by rw [hl]; exact Nat.mod_lt _ hpos),
        List.getElem?_concat_length]

/-- In any window of `cap` consecutive append indices ending at `n`, every
slot residue `i < cap` is hit by exactly one index; this exhibits it. -/
lemma exists_window_residue (cap n i : ℕ) (hcap : cap ≤ n) (hcap0 : 0 < cap)
    (hi : i < cap) : ∃ j, n - cap ≤ j ∧ j < n ∧ j % cap = i := by
  set s := (n - cap) % cap with hs_def
  have hslt : s < cap := Nat.mod_lt _ hcap0
  have holt : (i + cap - s) % cap < cap := Nat.mod_lt _ hcap0
  refine ⟨(n - cap) + (i + cap - s) % cap, by omega, by omega, ?_⟩
  rw [Nat.add_mod_mod, ← Nat.mod_add_mod, ← hs_def]
  have heq : s + (i + cap - s) = i + cap := by omega
  rw [heq, Nat.add_mod_right]
  exact Nat.mod_eq_of_lt hi

/-- Claim C7: the replay buffer is a fixed-capacity circular store.  After
appending a sequence `xs` of more than `cap` transitions (to a buffer of
positive capacity `cap`), the buffer still has exactly `cap` slots and
holds exactly the most recent `cap` transitions: the `j`-th appended
transition sits in slot `j % cap` for every `j` in the final window, and
conversely each slot `i` holds the transition of exactly one such window
index; moreover the next append overwrites the slot currently holding
the oldest stored transition `xs[xs.length - cap]`. -/
theorem C7_replay_buffer_circular (T : Type) (cap : ℕ) (xs : List T) (j i : ℕ)
    (y : T) (hcap0 : 0 < cap) (hlen : cap < xs.length)
    (hj1 : xs.length - cap ≤ j) (hj2 : j < xs.length) (hi : i < cap) :
    (((ReplayBuffer.empty T cap).appendAll xs).data.length = cap ∧
      ((ReplayBuffer.empty T cap).appendAll xs).pos = xs.length) ∧
    ((ReplayBuffer.empty T cap).appendAll xs).data[j % cap]? = some (xs[j]?) ∧
    (∃ k, xs.length - cap ≤ k ∧ k < xs.length ∧ k % cap = i ∧
      ((ReplayBuffer.empty T cap).appendAll xs).data[i]? = some (xs[k]?)) ∧
    ((ReplayBuffer.empty T cap).appendAll xs).data[xs.length % cap]? =
      some (xs[xs.length - cap]?) ∧
    (((ReplayBuffer.empty T cap).appendAll xs).append y).data[xs.length % cap]? =
      some (some y) := by
  obtain ⟨hc, hp, hl, hs⟩ := ReplayBuffer.appendAll_invariant T cap xs
  have hsub : (xs.length - cap) % cap = xs.length % cap := by
    conv_rhs => rw [← Nat.sub_add_cancel (Nat.le_of_lt hlen)]
    rw [Nat.add_mod_right]
  refine ⟨⟨hl, hp⟩, hs j hj2 (by omega), ?_, ?_, ?_⟩
  · obtain ⟨k, hk1, hk2, hk3⟩ :=
      exists_window_residue cap xs.length i (Nat.le_of_lt hlen) hcap0 hi
    exact ⟨k, hk1, hk2, hk3, by rw [← hk3]; exact hs k hk2 (by omega)⟩
  · rw [← hsub]
    exact hs (xs.length - cap) (by omega) (by omega)
  · simp only [ReplayBuffer.append, hp, hc]
    exact List.getElem?_set_eq_of_lt (some y) (by rw [hl]; exact Nat.mod_lt _ hcap0)

/-- Closed witness for C7: capacity 2, five appended transitions.  The
buffer ends holding exactly the two most recent transitions `40, 50`
(slot 0 holds `40` from index 3, slot 1 holds `50` from index 4), and a
further append overwrites the slot of the oldest stored transition. -/
theorem C7_replay_buffer_circular_witness :
    ((0 : ℕ) < 2 ∧ 2 < 5 ∧ (5 : ℕ) - 2 ≤ 4 ∧ 4 < 5 ∧ 0 < 2) ∧
    ((((ReplayBuffer.empty ℕ 2).appendAll [10, 20, 30, 40, 50]).data.length = 2 ∧
      ((ReplayBuffer.empty ℕ 2).appendAll [10, 20, 30, 40, 50]).pos = 5) ∧
    ((ReplayBuffer.empty ℕ 2).appendAll [10, 20, 30, 40, 50]).data[4 % 2]? =
      some ([10, 20, 30, 40, 50][4]?) ∧
    (∃ k, 5 - 2 ≤ k ∧ k < 5 ∧ k % 2 = 0 ∧
      ((ReplayBuffer.empty ℕ 2).appendAll [10, 20, 30, 40, 50]).data[0]? =
        some ([10, 20, 30, 40, 50][k]?)) ∧
    ((ReplayBuffer.empty ℕ 2).appendAll [10, 20, 30, 40, 50]).data[5 % 2]? =
      some ([10, 20, 30, 40, 50][5 - 2]?) ∧
    (((ReplayBuffer.empty ℕ 2).appendAll [10, 20, 30, 40, 50]).append 60).data[5 % 2]? =
      some (some 60)) := by
  constructor
  · decide
  · have h := C7_replay_buffer_circular ℕ 2 [10, 20, 30, 40, 50] 4 0 60
      (by decide) (by decide) (by decide) (by decide) (by decide)
    simpa using h

end Rljax
